import Mathlib

/-!
Shallow embedding of the `spikesorters` orchestration layer
(`src/spikesorters/sorterlist.py` and `src/spikesorters/hdsort/hdsort.py`).

Python dictionaries are modelled as association lists with Python's
insertion-order update semantics, Python exceptions as an error type
threaded through `Except`, and the filesystem / path-resolution effects as
explicit function parameters, so that every definition mirrors one function
of the source.
-/

namespace SpikeSorters

/-- Python values that occur as parameter entries in `hdsort.py`:
booleans, integers, strings, and floats (a float is carried by its
`repr` string, which is how it is rendered into templates). -/
inductive PVal where
  | pyBool (b : Bool)
  | pyInt (n : Int)
  | pyStr (s : String)
  | pyFloatRepr (s : String)
deriving DecidableEq, Repr

/-- Python truthiness (`if p[...]:`) for the values of `PVal`:
a bool is itself, an int is truthy iff nonzero, a string is truthy iff
nonempty; a float is truthy iff its repr is not a zero literal (never
exercised by the source on floats). -/
def PVal.truthy : PVal → Bool
  | .pyBool b => b
  | .pyInt n => n != 0
  | .pyStr s => s != ""
  | .pyFloatRepr s => s != "0.0"

/-- Python exceptions raised by the modelled source code. -/
inductive PyErr where
  | assertionError
  | keyError (k : String)
  | valueError (msg : String)
  | genericException (msg : String)
deriving DecidableEq, Repr

/-- A Python dict from parameter name to value, as an association list in
insertion order (the source only builds dicts with distinct keys). -/
abbrev Params := List (String × PVal)

/-- `k in d` on a Python dict. -/
def dictHasKey : Params → String → Bool
  | [], _ => false
  | kv :: t, k => kv.1 = k || dictHasKey t k

/-- Overwrite every entry of key `k` (the source's dicts have at most
one) with value `v`, in place. -/
def dictSetEntries : Params → String → PVal → Params
  | [], _, _ => []
  | kv :: t, k, v => (if kv.1 = k then (k, v) else kv) :: dictSetEntries t k v

/-- `d[k] = v` on a Python dict: overwrite in place if the key exists,
else append at the end (insertion order). -/
def dictSet (p : Params) (k : String) (v : PVal) : Params :=
  if dictHasKey p k then dictSetEntries p k v else p ++ [(k, v)]

/-- `d.get(k)`: the value at key `k`, if present (first entry wins, as
in Python where keys are unique). -/
def dictGet : Params → String → Option PVal
  | [], _ => none
  | kv :: t, k => if kv.1 = k then some kv.2 else dictGet t k

/-- `d[k]` in reading position: a missing key raises `KeyError`. -/
def dictGetE (p : Params) (k : String) : Except PyErr PVal :=
  match dictGet p k with
  | some v => Except.ok v
  | none => Except.error (PyErr.keyError k)

/-- `'/'.join`-style path join used to model `pathlib`'s `/` operator and
`os.path.join`. -/
def joinPath (a b : String) : String := a ++ "/" ++ b

/-- The filesystem and path-resolution context a run sees: `isDir p`
models `Path(p).is_dir()` and `absolutize p` models
`str(Path(p).absolute())`. -/
structure FS where
  isDir : String → Bool
  absolutize : String → String

/-- The quote-stripping step of `check_if_installed`
(`hdsort.py` lines 17-18): if the path starts with `"` then Python's
`hdsort_path[1:-1]` drops the first and the last character. -/
def stripQuotes (s : String) : String :=
  match s.data with
  | [] => s
  | c :: cs => if c = '"' then String.mk (List.dropLast cs) else s

/-- `check_if_installed` (`hdsort.py` lines 12-23) restricted to its
`None`-or-`str` argument domain: `None` gives `False`; a string is
quote-stripped, absolutized, and probed for the `+hdsort` marker
subdirectory. -/
def check_if_installed (fs : FS) (hdsort_path : Option String) : Bool :=
  match hdsort_path with
  | none => false
  | some p =>
    let p1 := stripQuotes p
    let p2 := fs.absolutize p1
    fs.isDir (joinPath p2 "+hdsort")

/-- An arbitrary Python value passed to `check_if_installed`: `None`, a
string, or any other object (e.g. an int). -/
inductive PyInput where
  | pyNone
  | pyStr (s : String)
  | otherObject
deriving DecidableEq, Repr

/-- `check_if_installed` on an arbitrary Python argument: after the
`None` test, `assert isinstance(hdsort_path, str)` (`hdsort.py` line 15)
raises `AssertionError` on any non-`None` non-string value. -/
def check_if_installed_py (fs : FS) (x : PyInput) : Except PyErr Bool :=
  match x with
  | .pyNone => Except.ok false
  | .pyStr s => Except.ok (check_if_installed fs (some s))
  | .otherObject => Except.error PyErr.assertionError

/-- `HDSortSorter.get_sorter_version` (`hdsort.py` lines 81-89):
`readFirstLine p` models `open(p).readline()` together with whatever
error opening the file may raise; the environment variable `HDSORT_PATH`
is the `Option String` argument. -/
def get_sorter_version (env_hdsort_path : Option String)
    (readFirstLine : String → Except PyErr String) : Except PyErr String :=
  match env_hdsort_path with
  | none => Except.ok "unknown"
  | some p => readFirstLine (joinPath p "version.txt")

/-- The `sorter_name` attributes of the ten registered sorter classes, in
the order of `sorter_full_list` (`sorterlist.py` lines 12-23).
`hdsort` is read off `hdsort.py` line 30; the other nine classes are not
under `src/`. Modelled from the spec: the registry's per-adapter
convenience wrappers `run_<name>` in `sorterlist.py` (lines 132-429)
dispatch on exactly these names. -/
def sorter_name_list : List String :=
  ["hdsort", "klusta", "tridesclous", "mountainsort4", "ironclust",
   "kilosort", "kilosort2", "spykingcircus", "herdingspikes", "waveclus"]

/-- The keys of `sorter_dict = {s.sorter_name: s for s in sorter_full_list}`
(`sorterlist.py` line 25): the names are pairwise distinct, so the dict
comprehension keeps them all in insertion order. -/
def sorter_dict_keys : List String := sorter_name_list

/-- The first argument of `run_sorter`: a string name, a sorter class
(identified by its `sorter_name`), or any other object. -/
inductive SorterRef where
  | byName (s : String)
  | byClass (c : String)
  | otherObject
deriving DecidableEq, Repr

/-- The dispatch prefix of `run_sorter` (`sorterlist.py` lines 69-74):
a string is looked up in `sorter_dict` (a miss raises `KeyError`); a
class is searched in `sorter_full_list`; anything else raises
`ValueError('Unknown sorter')`. -/
def resolve_sorter (x : SorterRef) : Except PyErr String :=
  match x with
  | .byName s =>
    if List.contains sorter_dict_keys s then Except.ok s
    else Except.error (PyErr.keyError s)
  | .byClass c =>
    if List.contains sorter_name_list c then Except.ok c
    else Except.error (PyErr.valueError "Unknown sorter")
  | .otherObject => Except.error (PyErr.valueError "Unknown sorter")

/-- The decimal digit character for `d < 10`. -/
def digitChar (d : ℕ) : Char := Char.ofNat (48 + d)

/-- The base-10 digits of `n`, least significant first (empty for 0);
the first argument is recursion fuel, at least `n` at every call. -/
def natToRevDigitsAux : ℕ → ℕ → List Char
  | 0, _ => []
  | fuel+1, n =>
    if n = 0 then [] else digitChar (n % 10) :: natToRevDigitsAux fuel (n / 10)

/-- The base-10 digits of `n`, least significant first (empty for 0). -/
def natToRevDigits (n : ℕ) : List Char := natToRevDigitsAux n n

/-- Python's `str` on a nonnegative integer. -/
def natToStr (n : ℕ) : String :=
  if n = 0 then "0" else String.mk (List.reverse (natToRevDigits n))

/-- Python's `str` on an integer. -/
def intToStr (n : Int) : String :=
  if n < 0 then "-" ++ natToStr n.natAbs else natToStr n.natAbs

/-- Python's `'\x7b\x7d'.format(x)` on a float of integral nonnegative
value `n` prints the digits followed by `.0` (e.g. `30000.0`); this
models `'\x7b\x7d'.format(samplerate)` in `_run` (`hdsort.py` line 202)
for the integral sampling rates the model ranges over. -/
def pyFloatStrOfNat (n : ℕ) : String := natToStr n ++ ".0"

/-- The numeric value of a digit character. -/
def digitVal (c : Char) : ℕ := c.toNat - 48

/-- The nonnegative integer denoted by a digit string, most significant
digit first. -/
def valChars (cs : List Char) : ℕ :=
  List.foldl (fun a c => a * 10 + digitVal c) 0 cs

/-- Parse a nonempty all-digit character list as a nonnegative integer. -/
def parseNatChars (cs : List Char) : Option ℕ :=
  if cs = [] then none
  else if List.all cs Char.isDigit then some (valChars cs)
  else none

/-- Split a character list at its first dot, if any. -/
def splitAtDot : List Char → Option (List Char × List Char)
  | [] => none
  | c :: cs =>
    if c = '.' then some ([], cs)
    else Option.map (fun pr => (c :: pr.1, pr.2)) (splitAtDot cs)

/-- Python's `float(s)` on the decimal strings the source produces
(`<digits>` or `<digits>.<digits>`); anything else is a `ValueError`
(returned as `none`). Signs, exponents and specials are never produced
by the modelled writer and are not modelled. -/
def parseFloat (s : String) : Option ℚ :=
  match splitAtDot s.data with
  | none => Option.map (fun n => (n : ℚ)) (parseNatChars s.data)
  | some (i, f) =>
    match parseNatChars i, parseNatChars f with
    | some ip, some fp =>
      some ((ip : ℚ) + (fp : ℚ) / (10 : ℚ) ^ List.length f)
    | _, _ => none

/-- The caller's recording, of which this layer only reads the sampling
frequency (`recording.get_sampling_frequency()`). Sampling rates are
modelled as integral (their Python value is a float of integral value,
such as `30000.0`). -/
structure Recording where
  sampling_frequency : ℕ
deriving DecidableEq, Repr

/-- The files of one run's output folder that the modelled code reads or
writes: the `samplerate.txt` sidecar's content, if the file exists. -/
structure OutputFolder where
  samplerate_txt : Option String
deriving DecidableEq, Repr

/-- A parsed sorting result (`se.MdaSortingExtractor(file_path, sampling_frequency)`):
the result-file path and the sampling frequency, a Python float modelled
as a rational. -/
structure SortResult where
  file_path : String
  sampling_frequency : ℚ
deriving DecidableEq, Repr

/-- The body of `run_sorter` after dispatch (`sorterlist.py` lines 76-82),
abstracted over what the resolved sorter's construct/set_params/run/
get_result sequence does: on a dispatch error nothing below line 74 runs
and the error propagates to the caller. -/
def run_sorter (runner : String → Except PyErr SortResult) (x : SorterRef) :
    Except PyErr SortResult :=
  match resolve_sorter x with
  | Except.error e => Except.error e
  | Except.ok name => runner name

/-- `HDSortSorter._run` (`hdsort.py` lines 175-202): the sampling rate is
read from the recording, the shell script runs the external tool
(`retcode` is the child process's exit code, an input of the model), a
non-zero code raises `Exception('HDsort returned a non-zero exit code')`
before anything is written, and only on success is the sidecar
`samplerate.txt` written with the formatted rate. -/
def HDSort_run (recording : Recording) (folder : OutputFolder)
    (retcode : Int) : Except PyErr OutputFolder :=
  let samplerate := recording.sampling_frequency
  if retcode ≠ 0 then
    Except.error (PyErr.genericException "HDsort returned a non-zero exit code")
  else
    Except.ok { folder with samplerate_txt := some (pyFloatStrOfNat samplerate) }

/-- `HDSortSorter.get_result_from_folder` (`hdsort.py` lines 204-216):
reads `samplerate.txt` from the output folder (a missing file raises, a
malformed one raises `float`'s `ValueError`) and constructs the result
from the folder's `firings.mda` path and the parsed rate; the original
recording is not an input. -/
def get_result_from_folder (output_folder : String) (folder : OutputFolder) :
    Except PyErr SortResult :=
  let result_fname := joinPath output_folder "firings.mda"
  match folder.samplerate_txt with
  | none => Except.error (PyErr.genericException "FileNotFoundError")
  | some content =>
    match parseFloat content with
    | none => Except.error (PyErr.valueError "could not convert string to float")
    | some q => Except.ok { file_path := result_fname, sampling_frequency := q }

/-- The `sorter.run(); sorter.get_result()` sequence of `run_sorter`
(`sorterlist.py` lines 79-80) for the HDSort adapter: the boolean records
whether the Parse step (`get_result`) was invoked; an exception in `run`
propagates and Parse never runs. -/
def run_then_get_result (recording : Recording) (output_folder : String)
    (folder : OutputFolder) (retcode : Int) :
    Except PyErr SortResult × Bool :=
  match HDSort_run recording folder retcode with
  | Except.error e => (Except.error e, false)
  | Except.ok folder1 => (get_result_from_folder output_folder folder1, true)

/-- The string `str.format` interpolates for each value kind: `str` on
bools is `True`/`False`, on ints the decimal digits, on strings the
string itself, on floats their repr. -/
def pyStrOfVal : PVal → String
  | .pyBool b => if b then "True" else "False"
  | .pyInt n => intToStr n
  | .pyStr s => s
  | .pyFloatRepr s => s

/-- Replace every occurrence of the nonempty pattern `pat` in `cs` by
`sub`, scanning left to right; the fuel argument bounds the recursion
and never runs out when it starts at the length of `cs`. -/
def replaceCharsAux (pat sub : List Char) : ℕ → List Char → List Char
  | 0, cs => cs
  | fuel+1, cs =>
    match cs with
    | [] => []
    | c :: rest =>
      if List.isPrefixOf pat cs then
        sub ++ replaceCharsAux pat sub fuel (List.drop pat.length cs)
      else c :: replaceCharsAux pat sub fuel rest

/-- Python's `str.replace` for a nonempty pattern, on the characters of
the strings. -/
def replaceStr (s pat sub : String) : String :=
  String.mk (replaceCharsAux pat.data sub.data s.data.length s.data)

/-- Python `template.format(**bindings)` for the templates of this
source: each placeholder `\x7bname\x7d` is replaced by the binding's
string; modelled as sequential replacement, which agrees with `format`
because the substituted values contain no braces and the placeholder
names are distinct. -/
def pyFormat (template : String) (bindings : List (String × String)) : String :=
  List.foldl
    (fun acc kv => replaceStr acc ("\x7b" ++ kv.1 ++ "\x7d") kv.2)
    template bindings

/-- Modelled from the spec: the template file `hdsort_master.m` belongs
to the repository but is not under `src/`; per the Render step of
`_setup_recording` (`hdsort.py` lines 138-149) it carries the named
placeholders hdsort_path, utils_path, output_folder, config_path,
file_name, file_format, sort_name, chunk_size and loop_mode, each
substituted once. -/
def hdsort_master_template : String :=
  "hdsort_path = \x7bhdsort_path\x7d\nutils_path = \x7butils_path\x7d\noutput_folder = \x7boutput_folder\x7d\nconfig_path = \x7bconfig_path\x7d\nfile_name = \x7bfile_name\x7d\nfile_format = \x7bfile_format\x7d\nsort_name = \x7bsort_name\x7d\nchunk_size = \x7bchunk_size\x7d\nloop_mode = \x7bloop_mode\x7d\n"

/-- Modelled from the spec: the template file `hdsort_config.m` belongs
to the repository but is not under `src/`; per the Render step of
`_setup_recording` (`hdsort.py` lines 161-168) it carries the named
placeholders filter, parfor, hpf, lpf, detect_threshold and n_pc_dims,
each substituted once. -/
def hdsort_config_template : String :=
  "filter = \x7bfilter\x7d\nparfor = \x7bparfor\x7d\nhpf = \x7bhpf\x7d\nlpf = \x7blpf\x7d\ndetect_threshold = \x7bdetect_threshold\x7d\nn_pc_dims = \x7bn_pc_dims\x7d\n"

/-- What `_setup_recording` leaves behind: the adapter's (mutated)
params dict and the two rendered script files written into the output
folder. -/
structure SetupResult where
  params : Params
  master_txt : String
  config_txt : String
deriving DecidableEq, Repr

/-- `_setup_recording` lines 122-129: records the serialized recording's
path (`file_name`), the file format and the sort name into the params
dict. -/
def setupAugmentParams (fs : FS) (output_folder : String) (p : Params) :
    Params :=
  let file_name := fs.absolutize (joinPath output_folder "recording.h5")
  let p1 := dictSet p "file_name" (PVal.pyStr file_name)
  let p2 := dictSet p1 "file_format" (PVal.pyStr "mea1k")
  dictSet p2 "sort_name" (PVal.pyStr "hdsort_output")

/-- `_setup_recording` lines 151-159: the in-place coercion of
`p['filter']` to `1`/`0` and of `p['parfor']` to `'true'`/`'false'`,
by Python truthiness of the current values; a missing key raises
`KeyError`. -/
def coerceFilterParfor (p : Params) : Except PyErr Params := do
  let filtV ← dictGetE p "filter"
  let p1 := if filtV.truthy then dictSet p "filter" (PVal.pyInt 1)
            else dictSet p "filter" (PVal.pyInt 0)
  let parforV ← dictGetE p1 "parfor"
  pure (if parforV.truthy then dictSet p1 "parfor" (PVal.pyStr "true")
        else dictSet p1 "parfor" (PVal.pyStr "false"))

/-- The master-template bindings of `_setup_recording` lines 138-149,
reading from the augmented (pre-coercion) params. -/
def masterBindings (fs : FS) (hp utils_path output_folder : String)
    (p : Params) : Except PyErr (List (String × String)) := do
  let fileNameV ← dictGetE p "file_name"
  let fileFormatV ← dictGetE p "file_format"
  let sortNameV ← dictGetE p "sort_name"
  let chunkV ← dictGetE p "chunk_size"
  let loopV ← dictGetE p "loop_mode"
  pure [("hdsort_path", fs.absolutize hp),
        ("utils_path", fs.absolutize utils_path),
        ("output_folder", output_folder),
        ("config_path", fs.absolutize (joinPath output_folder "hdsort_config.m")),
        ("file_name", pyStrOfVal fileNameV),
        ("file_format", pyStrOfVal fileFormatV),
        ("sort_name", pyStrOfVal sortNameV),
        ("chunk_size", pyStrOfVal chunkV),
        ("loop_mode", pyStrOfVal loopV)]

/-- The config-template bindings of `_setup_recording` lines 161-168,
reading from the coerced params. -/
def configBindings (p : Params) : Except PyErr (List (String × String)) := do
  let filtV ← dictGetE p "filter"
  let parforV ← dictGetE p "parfor"
  let hpfV ← dictGetE p "hpf"
  let lpfV ← dictGetE p "lpf"
  let dtV ← dictGetE p "detect_threshold"
  let pcV ← dictGetE p "n_pc_dims"
  pure [("filter", pyStrOfVal filtV),
        ("parfor", pyStrOfVal parforV),
        ("hpf", pyStrOfVal hpfV),
        ("lpf", pyStrOfVal lpfV),
        ("detect_threshold", pyStrOfVal dtV),
        ("n_pc_dims", pyStrOfVal pcV)]

/-- `HDSortSorter._setup_recording` (`hdsort.py` lines 101-173): checks
installation, records `file_name`/`file_format`/`sort_name` into the
params dict, renders the master template, coerces `filter` and `parfor`
in place, renders the config template, and writes both files. The
recording serialization's file content is outside the model; only its
path enters the params. -/
def HDSort_setup_recording (fs : FS) (hdsort_path : Option String)
    (utils_path output_folder : String) (params0 : Params) :
    Except PyErr SetupResult :=
  if ¬ check_if_installed fs hdsort_path then
    Except.error (PyErr.genericException "installation_mesg")
  else
    match hdsort_path with
    | none => Except.error PyErr.assertionError
    | some hp => do
      let p1 := setupAugmentParams fs output_folder params0
      let mb ← masterBindings fs hp utils_path output_folder p1
      let master := pyFormat hdsort_master_template mb
      let p2 ← coerceFilterParfor p1
      let cb ← configBindings p2
      let config := pyFormat hdsort_config_template cb
      pure { params := p2, master_txt := master, config_txt := config }

/-- The `_default_params` table of the HDSort adapter
(`hdsort.py` lines 35-45). -/
def hdsort_default_params : Params :=
  [("detect_threshold", PVal.pyFloatRepr "4.2"),
   ("detect_sign", PVal.pyInt (-1)),
   ("filter", PVal.pyBool true),
   ("parfor", PVal.pyBool true),
   ("hpf", PVal.pyInt 300),
   ("lpf", PVal.pyInt 7000),
   ("n_pc_dims", PVal.pyInt 6),
   ("chunk_size", PVal.pyInt 500000),
   ("loop_mode", PVal.pyStr "local_parfor")]

/-- `available_sorters` (`sorterlist.py` lines 85-89):
`sorted(list(sorter_dict.keys()))`. -/
def available_sorters : List String :=
  List.insertionSort (fun a b => a ≤ b) sorter_dict_keys

/-- `installed_sorters` (`sorterlist.py` lines 92-96) as a function of
which sorter classes' install probes returned true at import time
(`installed_sorter_list`, line 27). -/
def installed_sorters (installed : String → Bool) : List String :=
  List.insertionSort (fun a b => a ≤ b) (List.filter installed sorter_name_list)

/-- A filesystem on which every probe succeeds and paths are already
absolute: the concrete context used to evaluate the model. -/
def installedFS : FS := { isDir := fun _ => true, absolutize := fun s => s }

/-- A filesystem with no directories at all. -/
def emptyFS : FS := { isDir := fun _ => false, absolutize := fun s => s }

/-- A post-dispatch continuation that always succeeds, used to evaluate
`run_sorter`'s dispatch at concrete inputs. -/
def trivialRunner : String → Except PyErr SortResult :=
  fun _ => Except.ok { file_path := "", sampling_frequency := 0 }

/-- The default HDSort params with the caller override `parfor=False`
(a key of the Parameter Table, so `set_params` accepts it). -/
def paramsParforFalse : Params :=
  dictSet hdsort_default_params "parfor" (PVal.pyBool false)

/-- A minimal params dict holding the keys `_setup_recording` reads,
with short values, used at concrete evaluations. -/
def smallParams : Params :=
  [("filter", PVal.pyBool false),
   ("parfor", PVal.pyBool true),
   ("hpf", PVal.pyInt 1),
   ("lpf", PVal.pyInt 2),
   ("detect_threshold", PVal.pyInt 3),
   ("n_pc_dims", PVal.pyInt 4),
   ("chunk_size", PVal.pyInt 5),
   ("loop_mode", PVal.pyStr "l")]

end SpikeSorters

namespace SpikeSorters

/-! ### Association-list lemmas for the dict model -/

theorem dictGet_dictSetEntries_eq (p : Params) (k : String) (v : PVal)
    (h : dictHasKey p k = true) :
    dictGet (dictSetEntries p k v) k = some v := by
  induction p with
  | nil => simp [dictHasKey] at h
  | cons kv t ih =>
    by_cases hk : kv.1 = k
    · simp [dictSetEntries, dictGet, hk]
    · simp only [dictHasKey, Bool.or_eq_true, decide_eq_true_eq] at h
      rcases h with h | h
      · exact absurd h hk
      · simp [dictSetEntries, dictGet, hk, ih h]

theorem dictGet_dictSetEntries_ne (p : Params) (k k1 : String) (v : PVal)
    (h : k1 ≠ k) :
    dictGet (dictSetEntries p k v) k1 = dictGet p k1 := by
  induction p with
  | nil => rfl
  | cons kv t ih =>
    by_cases hk : kv.1 = k
    · simp [dictSetEntries, dictGet, hk, Ne.symm h, ih]
    · by_cases hk1 : kv.1 = k1
      · simp [dictSetEntries, dictGet, hk, hk1, h]
      · simp [dictSetEntries, dictGet, hk, hk1, ih]

theorem dictGet_append_ne (p : Params) (k k1 : String) (v : PVal)
    (h : k1 ≠ k) :
    dictGet (p ++ [(k, v)]) k1 = dictGet p k1 := by
  induction p with
  | nil => simp [dictGet, Ne.symm h]
  | cons kv t ih =>
    by_cases hk1 : kv.1 = k1
    · simp [dictGet, hk1]
    · simp [dictGet, hk1, ih]

theorem dictGet_dictSet_self (p : Params) (k : String) (v : PVal) :
    dictGet (dictSet p k v) k = some v := by
  unfold dictSet
  split
  case isTrue h => exact dictGet_dictSetEntries_eq p k v h
  case isFalse h =>
    induction p with
    | nil => simp [dictGet]
    | cons kv t ih =>
      simp only [dictHasKey, Bool.or_eq_true, decide_eq_true_eq, not_or] at h
      simp [dictGet, h.1, ih (by simpa using h.2)]

theorem dictGet_dictSet_ne (p : Params) (k k1 : String) (v : PVal)
    (h : k1 ≠ k) : dictGet (dictSet p k v) k1 = dictGet p k1 := by
  unfold dictSet
  split
  · exact dictGet_dictSetEntries_ne p k k1 v h
  · exact dictGet_append_ne p k k1 v h

theorem dictGetE_eq_ok_iff (p : Params) (k : String) (v : PVal) :
    dictGetE p k = Except.ok v ↔ dictGet p k = some v := by
  unfold dictGetE
  cases h : dictGet p k <;> simp

/-! ### Decimal serialization lemmas -/

theorem natToRevDigitsAux_congr (fuel1 : ℕ) :
    ∀ fuel2 n, n ≤ fuel1 → n ≤ fuel2 →
      natToRevDigitsAux fuel1 n = natToRevDigitsAux fuel2 n := by
  induction fuel1 using Nat.strong_induction_on with
  | _ fuel1 ih =>
    intro fuel2 n h1 h2
    match fuel1, fuel2, n with
    | 0, 0, n => rfl
    | 0, f2+1, n =>
      have hn : n = 0 := Nat.le_zero.mp h1
      subst hn
      rfl
    | f1+1, 0, n =>
      have hn : n = 0 := Nat.le_zero.mp h2
      subst hn
      rfl
    | f1+1, f2+1, 0 => rfl
    | f1+1, f2+1, n+1 =>
      simp only [natToRevDigitsAux]
      rw [if_neg (Nat.succ_ne_zero n), if_neg (Nat.succ_ne_zero n)]
      congr 1
      have hq : (n+1) / 10 < n+1 := Nat.div_lt_self (Nat.succ_pos n) (by norm_num)
      exact ih f1 (Nat.lt_succ_self f1) f2 ((n+1) / 10) (by omega) (by omega)

theorem natToRevDigits_eq (n : ℕ) (h : n ≠ 0) :
    natToRevDigits n = digitChar (n % 10) :: natToRevDigits (n / 10) := by
  unfold natToRevDigits
  match n, h with
  | n+1, _ =>
    simp only [natToRevDigitsAux]
    rw [if_neg (Nat.succ_ne_zero n)]
    congr 1
    have hq : (n+1) / 10 < n+1 := Nat.div_lt_self (Nat.succ_pos n) (by norm_num)
    exact natToRevDigitsAux_congr n _ _ (by omega) le_rfl

theorem digitVal_digitChar (d : ℕ) (h : d < 10) :
    digitVal (digitChar d) = d := by
  interval_cases d <;> decide

theorem isDigit_digitChar (d : ℕ) (h : d < 10) :
    (digitChar d).isDigit = true := by
  interval_cases d <;> decide

theorem valChars_append_singleton (cs : List Char) (c : Char) :
    valChars (cs ++ [c]) = valChars cs * 10 + digitVal c := by
  unfold valChars
  rw [List.foldl_append]
  rfl

theorem natToRevDigits_ne_nil (n : ℕ) (h : n ≠ 0) :
    natToRevDigits n ≠ [] := by
  rw [natToRevDigits_eq n h]
  simp

theorem valChars_reverse_natToRevDigits (n : ℕ) :
    valChars (List.reverse (natToRevDigits n)) = n := by
  induction n using Nat.strong_induction_on with
  | _ n ih =>
    by_cases h : n = 0
    · subst h
      rfl
    · rw [natToRevDigits_eq n h]
      rw [List.reverse_cons, valChars_append_singleton]
      rw [ih (n / 10) (Nat.div_lt_self (Nat.pos_of_ne_zero h) (by norm_num))]
      rw [digitVal_digitChar (n % 10) (Nat.mod_lt n (by norm_num))]
      omega

theorem all_isDigit_natToRevDigits (n : ℕ) :
    List.all (natToRevDigits n) Char.isDigit = true := by
  induction n using Nat.strong_induction_on with
  | _ n ih =>
    by_cases h : n = 0
    · subst h; rfl
    · rw [natToRevDigits_eq n h]
      simp only [List.all_cons, Bool.and_eq_true]
      exact ⟨isDigit_digitChar (n % 10) (Nat.mod_lt n (by norm_num)),
        ih (n / 10) (Nat.div_lt_self (Nat.pos_of_ne_zero h) (by norm_num))⟩

theorem parseNatChars_natToStr (n : ℕ) :
    parseNatChars (natToStr n).data = some n := by
  by_cases h : n = 0
  · subst h; decide
  · unfold natToStr
    rw [if_neg h]
    have hdata : (String.mk (List.reverse (natToRevDigits n))).data
        = List.reverse (natToRevDigits n) := rfl
    rw [hdata]
    unfold parseNatChars
    rw [if_neg (by simpa using natToRevDigits_ne_nil n h)]
    rw [if_pos (by rw [List.all_reverse]; exact all_isDigit_natToRevDigits n)]
    rw [valChars_reverse_natToRevDigits]

theorem all_isDigit_natToStr (n : ℕ) :
    List.all (natToStr n).data Char.isDigit = true := by
  by_cases h : n = 0
  · subst h; decide
  · unfold natToStr
    rw [if_neg h]
    have hdata : (String.mk (List.reverse (natToRevDigits n))).data
        = List.reverse (natToRevDigits n) := rfl
    rw [hdata, List.all_reverse]
    exact all_isDigit_natToRevDigits n

theorem dot_not_mem_natToStr (n : ℕ) : '.' ∉ (natToStr n).data := by
  intro hmem
  have hall := all_isDigit_natToStr n
  rw [List.all_eq_true] at hall
  have := hall _ hmem
  simp at this

theorem splitAtDot_append (xs ys : List Char) (h : '.' ∉ xs) :
    splitAtDot (xs ++ '.' :: ys) = some (xs, ys) := by
  induction xs with
  | nil => simp [splitAtDot]
  | cons c cs ih =>
    simp only [List.mem_cons, not_or] at h
    have hc : ¬ (c = '.') := fun hh => h.1 hh.symm
    simp [splitAtDot, hc, ih h.2]

theorem parseFloat_pyFloatStrOfNat (n : ℕ) :
    parseFloat (pyFloatStrOfNat n) = some ((n : ℚ)) := by
  unfold pyFloatStrOfNat parseFloat
  have hdata : (natToStr n ++ ".0").data = (natToStr n).data ++ '.' :: ['0'] := by
    rw [String.data_append]
  rw [hdata, splitAtDot_append _ _ (dot_not_mem_natToStr n)]
  have h0 : parseNatChars ['0'] = some 0 := by decide
  simp [parseNatChars_natToStr n, h0]

/-! ### Characterizations of the Render step's intermediate states -/

theorem aug_get_file_name (fs : FS) (of : String) (p : Params) :
    dictGet (setupAugmentParams fs of p) "file_name"
      = some (PVal.pyStr (fs.absolutize (joinPath of "recording.h5"))) := by
  unfold setupAugmentParams
  rw [dictGet_dictSet_ne _ _ _ _ (by decide), dictGet_dictSet_ne _ _ _ _ (by decide)]
  exact dictGet_dictSet_self _ _ _

theorem aug_get_file_format (fs : FS) (of : String) (p : Params) :
    dictGet (setupAugmentParams fs of p) "file_format"
      = some (PVal.pyStr "mea1k") := by
  unfold setupAugmentParams
  rw [dictGet_dictSet_ne _ _ _ _ (by decide)]
  exact dictGet_dictSet_self _ _ _

theorem aug_get_sort_name (fs : FS) (of : String) (p : Params) :
    dictGet (setupAugmentParams fs of p) "sort_name"
      = some (PVal.pyStr "hdsort_output") := by
  unfold setupAugmentParams
  exact dictGet_dictSet_self _ _ _

theorem aug_get_other (fs : FS) (of : String) (p : Params) (k : String)
    (h1 : k ≠ "file_name") (h2 : k ≠ "file_format") (h3 : k ≠ "sort_name") :
    dictGet (setupAugmentParams fs of p) k = dictGet p k := by
  unfold setupAugmentParams
  rw [dictGet_dictSet_ne _ _ _ _ h3, dictGet_dictSet_ne _ _ _ _ h2,
    dictGet_dictSet_ne _ _ _ _ h1]

theorem coerceFilterParfor_ok_inv (p q : Params)
    (h : coerceFilterParfor p = Except.ok q) :
    ∃ fv pv, dictGet p "filter" = some fv ∧ dictGet p "parfor" = some pv ∧
      dictGet q "filter" = some (PVal.pyInt (if fv.truthy then 1 else 0)) ∧
      dictGet q "parfor" = some (PVal.pyStr (if pv.truthy then "true" else "false")) ∧
      ∀ k, k ≠ "filter" → k ≠ "parfor" → dictGet q k = dictGet p k := by
  unfold coerceFilterParfor at h
  simp only [bind, Except.bind, dictGetE] at h
  split at h
  · cases h
  · rename_i fv hfv
    split at hfv
    case h_2 => cases hfv
    rename_i hfv0
    split at h
    · cases h
    · rename_i pv hpv
      split at hpv
      case h_2 => cases hpv
      rename_i hpv0
      simp only [pure, Except.pure, Except.ok.injEq] at h
      subst h
      cases hfv; cases hpv
      refine ⟨fv, pv, hfv0, ?_, ?_, ?_, ?_⟩
      · cases hft : fv.truthy <;> simp [hft] at hpv0 <;>
          rwa [dictGet_dictSet_ne _ _ _ _ (by decide)] at hpv0
      · cases hpt : pv.truthy <;> cases hft : fv.truthy <;>
          simp only [hpt, hft, Bool.false_eq_true, if_true, if_false, ite_true, ite_false] <;>
          rw [dictGet_dictSet_ne _ _ _ _ (by decide)] <;>
          exact dictGet_dictSet_self _ _ _
      · cases hpt : pv.truthy <;> cases hft : fv.truthy <;>
          simp only [hpt, hft, Bool.false_eq_true, if_true, if_false, ite_true, ite_false] <;>
          exact dictGet_dictSet_self _ _ _
      · intro k hk1 hk2
        cases hpt : pv.truthy <;> cases hft : fv.truthy <;>
          simp only [hpt, hft, Bool.false_eq_true, if_true, if_false, ite_true, ite_false] <;>
          rw [dictGet_dictSet_ne _ _ _ _ hk2, dictGet_dictSet_ne _ _ _ _ hk1]

theorem masterBindings_ok_inv (fs : FS) (hp up of : String) (p : Params)
    (mb : List (String × String))
    (h : masterBindings fs hp up of p = Except.ok mb) :
    ∃ fnV ffV snV chV lmV,
      dictGet p "file_name" = some fnV ∧
      dictGet p "file_format" = some ffV ∧
      dictGet p "sort_name" = some snV ∧
      dictGet p "chunk_size" = some chV ∧
      dictGet p "loop_mode" = some lmV ∧
      mb = [("hdsort_path", fs.absolutize hp),
            ("utils_path", fs.absolutize up),
            ("output_folder", of),
            ("config_path", fs.absolutize (joinPath of "hdsort_config.m")),
            ("file_name", pyStrOfVal fnV),
            ("file_format", pyStrOfVal ffV),
            ("sort_name", pyStrOfVal snV),
            ("chunk_size", pyStrOfVal chV),
            ("loop_mode", pyStrOfVal lmV)] := by
  unfold masterBindings at h
  simp only [bind, Except.bind, dictGetE] at h
  split at h
  · cases h
  · rename_i fnV hfn
    split at hfn
    case h_2 => cases hfn
    rename_i hfn0
    split at h
    · cases h
    · rename_i ffV hff
      split at hff
      case h_2 => cases hff
      rename_i hff0
      split at h
      · cases h
      · rename_i snV hsn
        split at hsn
        case h_2 => cases hsn
        rename_i hsn0
        split at h
        · cases h
        · rename_i chV hch
          split at hch
          case h_2 => cases hch
          rename_i hch0
          split at h
          · cases h
          · rename_i lmV hlm
            split at hlm
            case h_2 => cases hlm
            rename_i hlm0
            simp only [pure, Except.pure, Except.ok.injEq] at h
            cases hfn; cases hff; cases hsn; cases hch; cases hlm
            exact ⟨_, _, _, _, _, hfn0, hff0, hsn0, hch0, hlm0, h.symm⟩

theorem configBindings_ok_inv (p : Params) (cb : List (String × String))
    (h : configBindings p = Except.ok cb) :
    ∃ fV pV hV lV dV nV,
      dictGet p "filter" = some fV ∧
      dictGet p "parfor" = some pV ∧
      dictGet p "hpf" = some hV ∧
      dictGet p "lpf" = some lV ∧
      dictGet p "detect_threshold" = some dV ∧
      dictGet p "n_pc_dims" = some nV ∧
      cb = [("filter", pyStrOfVal fV),
            ("parfor", pyStrOfVal pV),
            ("hpf", pyStrOfVal hV),
            ("lpf", pyStrOfVal lV),
            ("detect_threshold", pyStrOfVal dV),
            ("n_pc_dims", pyStrOfVal nV)] := by
  unfold configBindings at h
  simp only [bind, Except.bind, dictGetE] at h
  split at h
  · cases h
  · rename_i fV hf
    split at hf
    case h_2 => cases hf
    rename_i hf0
    split at h
    · cases h
    · rename_i pV hpv
      split at hpv
      case h_2 => cases hpv
      rename_i hpv0
      split at h
      · cases h
      · rename_i hV hh
        split at hh
        case h_2 => cases hh
        rename_i hh0
        split at h
        · cases h
        · rename_i lV hl
          split at hl
          case h_2 => cases hl
          rename_i hl0
          split at h
          · cases h
          · rename_i dV hd
            split at hd
            case h_2 => cases hd
            rename_i hd0
            split at h
            · cases h
            · rename_i nV hn
              split at hn
              case h_2 => cases hn
              rename_i hn0
              simp only [pure, Except.pure, Except.ok.injEq] at h
              cases hf; cases hpv; cases hh; cases hl; cases hd; cases hn
              exact ⟨_, _, _, _, _, _, hf0, hpv0, hh0, hl0, hd0, hn0, h.symm⟩

theorem setup_ok_inv (fs : FS) (hd : Option String) (up of : String)
    (p : Params) (r : SetupResult)
    (h : HDSort_setup_recording fs hd up of p = Except.ok r) :
    ∃ hp mb cb,
      hd = some hp ∧
      masterBindings fs hp up of (setupAugmentParams fs of p) = Except.ok mb ∧
      coerceFilterParfor (setupAugmentParams fs of p) = Except.ok r.params ∧
      configBindings r.params = Except.ok cb ∧
      r.master_txt = pyFormat hdsort_master_template mb ∧
      r.config_txt = pyFormat hdsort_config_template cb := by
  unfold HDSort_setup_recording at h
  split at h
  · cases h
  · split at h
    · cases h
    · rename_i hpv hcheck
      simp only [bind, Except.bind] at h
      split at h
      · cases h
      · rename_i mb hmb
        split at h
        · cases h
        · rename_i p2 hp2
          split at h
          · cases h
          · rename_i cb hcb
            simp only [pure, Except.pure, Except.ok.injEq] at h
            subst h
            exact ⟨hpv, mb, cb, rfl, hmb, hp2, hcb, rfl, rfl⟩

/-! ### Claim theorems -/

/-- C1 counterexample: at the unregistered name `notasorter`,
`run_sorter` raises the dict lookup's `KeyError('notasorter')`, which is
not the code's own `ValueError('Unknown sorter')` (the error the spec
calls `UnknownSorterError`); that branch is unreachable for string
arguments. -/
theorem c1_counterexample :
    run_sorter trivialRunner (SorterRef.byName "notasorter")
      = Except.error (PyErr.keyError "notasorter") ∧
    (Except.error (PyErr.keyError "notasorter") : Except PyErr SortResult)
      ≠ Except.error (PyErr.valueError "Unknown sorter") := by
  exact ⟨rfl, by simp⟩

/-- C1 amended: for every string name not in the registry and whatever
the resolved-sorter continuation would do, `run_sorter` fails with the
dict lookup's `KeyError` carrying the name — it never silently no-ops
and never returns a result. -/
theorem c1_unregistered_name_fails (runner : String → Except PyErr SortResult)
    (s : String) (h : s ∉ sorter_name_list) :
    run_sorter runner (SorterRef.byName s)
      = Except.error (PyErr.keyError s) := by
  simp [run_sorter, resolve_sorter, sorter_dict_keys, h]

/-- C1 witness: the amended theorem at the concrete unregistered name
`not_a_sorter`. -/
theorem c1_witness :
    run_sorter trivialRunner (SorterRef.byName "not_a_sorter")
      = Except.error (PyErr.keyError "not_a_sorter") :=
  c1_unregistered_name_fails trivialRunner "not_a_sorter" (by decide)

/-- C3 counterexample: when the child process exits with code 1 the run
fails with the constant `Exception('HDsort returned a non-zero exit
code')` — the very same error value as for exit code 2, so the error
carries no exit code — and Parse is not invoked (the boolean is false). -/
theorem c3_counterexample :
    run_then_get_result { sampling_frequency := 30000 } "/out"
        { samplerate_txt := none } 1
      = (Except.error
          (PyErr.genericException "HDsort returned a non-zero exit code"),
         false) ∧
    run_then_get_result { sampling_frequency := 30000 } "/out"
        { samplerate_txt := none } 1
      = run_then_get_result { sampling_frequency := 30000 } "/out"
        { samplerate_txt := none } 2 := ⟨rfl, rfl⟩

/-- C3 amended: for every non-zero exit code the run fails with the
generic `Exception('HDsort returned a non-zero exit code')` (which does
not carry the code), and the Parse step (`get_result_from_folder`) is
never invoked for that run. -/
theorem c3_nonzero_exit_fails_without_parse (recording : Recording)
    (output_folder : String) (folder : OutputFolder) (retcode : Int)
    (h : retcode ≠ 0) :
    run_then_get_result recording output_folder folder retcode
      = (Except.error
          (PyErr.genericException "HDsort returned a non-zero exit code"),
         false) := by
  unfold run_then_get_result HDSort_run
  rw [if_pos h]

/-- C3 witness: the amended theorem at exit code 5. -/
theorem c3_witness :
    run_then_get_result { sampling_frequency := 8 } "/o"
        { samplerate_txt := some "x" } 5
      = (Except.error
          (PyErr.genericException "HDsort returned a non-zero exit code"),
         false) :=
  c3_nonzero_exit_fails_without_parse { sampling_frequency := 8 } "/o"
    { samplerate_txt := some "x" } 5 (by decide)

/-- C5: `check_if_installed(None)` is false, and on any string path the
probe returns true exactly when the filesystem has the `+hdsort` marker
directory under the quote-stripped, absolutized path — in particular
false whenever the marker is absent. -/
theorem c5_marker_dir_iff (fs : FS) (p : String) :
    check_if_installed fs none = false ∧
    check_if_installed fs (some p)
      = fs.isDir (joinPath (fs.absolutize (stripQuotes p)) "+hdsort") :=
  ⟨rfl, rfl⟩

/-- C6 counterexample: on an argument that is neither `None` nor a
string, `check_if_installed` does not return a boolean — the
`assert isinstance(hdsort_path, str)` raises `AssertionError`. -/
theorem c6_counterexample :
    check_if_installed_py emptyFS PyInput.otherObject
      = Except.error PyErr.assertionError := rfl

/-- C6 amended: `check_if_installed` returns a boolean and raises
nothing on `None` (false) and on every string (absence of path or
marker is the normal result false, not an error), but on any other
value it raises `AssertionError` from the isinstance assert. -/
theorem c6_total_on_none_and_str (fs : FS) (s : String) :
    check_if_installed_py fs PyInput.pyNone = Except.ok false ∧
    check_if_installed_py fs (PyInput.pyStr s)
      = Except.ok (check_if_installed fs (some s)) ∧
    check_if_installed_py fs PyInput.otherObject
      = Except.error PyErr.assertionError :=
  ⟨rfl, rfl, rfl⟩

/-- C7 counterexample: on the unmatched-quote path `"abc` (which is not
surrounded by a matched pair), the stripping step does not leave the
characters unchanged: it drops the leading quote and the trailing
non-quote character `c`, giving `ab`. -/
theorem c7_counterexample :
    stripQuotes "\"abc" = "ab" ∧ stripQuotes "\"abc" ≠ "\"abc" := by
  exact ⟨rfl, by decide⟩

/-- C7 amended: a path surrounded by a matched pair of double quotes
loses exactly that pair, and a path that does not start with a quote is
unchanged; but a path that starts with a quote always loses its first
and last characters, even when the last is not a quote. -/
theorem c7_strip_pair_or_unchanged (t s : String)
    (h : s.data.head? ≠ some '"') :
    stripQuotes ("\"" ++ t ++ "\"") = t ∧ stripQuotes s = s := by
  constructor
  · unfold stripQuotes
    have hd : ("\"" ++ t ++ "\"").data = '"' :: (t.data ++ ['"']) := by
      rw [String.data_append, String.data_append]
      rfl
    rw [hd]
    simp
  · unfold stripQuotes
    cases hdq : s.data with
    | nil => rfl
    | cons c cs =>
      rw [hdq] at h
      simp only [List.head?] at h
      have hc : ¬ (c = '"') := fun hh => h (by rw [hh])
      simp [hc]

/-- C7 witness: the amended theorem at the quoted path `"x"` and the
unquoted path `abc`. -/
theorem c7_witness :
    stripQuotes ("\"" ++ "x" ++ "\"") = "x" ∧ stripQuotes "abc" = "abc" :=
  c7_strip_pair_or_unchanged "x" "abc" (by decide)

/-- C8: on a successful run (exit code 0) the sidecar `samplerate.txt`
is written with exactly the recording's formatted sampling frequency,
and `get_result_from_folder` — a function of the output folder alone,
not of the Recording — builds the result with exactly that frequency
parsed back. -/
theorem c8_samplerate_roundtrip (recording : Recording)
    (output_folder : String) (folder : OutputFolder) :
    HDSort_run recording folder 0
      = Except.ok
          { samplerate_txt :=
              some (pyFloatStrOfNat recording.sampling_frequency) } ∧
    (run_then_get_result recording output_folder folder 0).1
      = Except.ok
          { file_path := joinPath output_folder "firings.mda",
            sampling_frequency := (recording.sampling_frequency : ℚ) } := by
  constructor
  · rfl
  · unfold run_then_get_result HDSort_run get_result_from_folder
    simp [parseFloat_pyFloatStrOfNat]

/-- C9: `available_sorters()` is alphabetically sorted with no
duplicates, and every name `installed_sorters()` can return (for any
installation state of the ten classes) is also in
`available_sorters()`. -/
theorem c9_sorted_nodup_subset (installed : String → Bool) :
    List.Sorted (fun a b : String => a ≤ b) available_sorters ∧
    List.Nodup available_sorters ∧
    ∀ x, x ∈ installed_sorters installed → x ∈ available_sorters := by
  refine ⟨List.sorted_insertionSort _ _,
    ((List.perm_insertionSort _ _).nodup_iff).mpr (by decide), ?_⟩
  intro x hx
  unfold installed_sorters at hx
  rw [List.mem_insertionSort] at hx
  unfold available_sorters
  rw [List.mem_insertionSort]
  exact List.mem_of_mem_filter hx

/-- C9 witness: with every class installed, `hdsort` is listed by
`installed_sorters` and, by the theorem, by `available_sorters`. -/
theorem c9_witness :
    "hdsort" ∈ installed_sorters (fun _ => true) ∧
    "hdsort" ∈ available_sorters := by
  have hmem : "hdsort" ∈ installed_sorters (fun _ => true) := by
    unfold installed_sorters
    rw [List.mem_insertionSort]
    decide
  exact ⟨hmem, (c9_sorted_nodup_subset (fun _ => true)).2.2 "hdsort" hmem⟩

/-- C10: with `HDSORT_PATH` unset, `get_sorter_version` returns
`'unknown'` for every filesystem behavior (it never touches the
filesystem), and with the variable set to `p` it reads exactly
`p/version.txt`. -/
theorem c10_version_unknown_when_unset
    (f g : String → Except PyErr String) (p : String) :
    get_sorter_version none f = Except.ok "unknown" ∧
    get_sorter_version none f = get_sorter_version none g ∧
    get_sorter_version (some p) f = f (joinPath p "version.txt") :=
  ⟨rfl, rfl, rfl⟩

/-- C4 counterexample: running the Render stage on the default params
adds a `file_name` entry that was absent and rewrites `filter` from
`True` to `1`, so the params mapping is not frozen during the run. -/
theorem c4_counterexample :
    Except.map
        (fun r => (dictGet r.params "file_name", dictGet r.params "filter"))
        (HDSort_setup_recording installedFS (some "/opt/hdsort") "/utils"
          "/out" hdsort_default_params)
      = Except.ok (some (PVal.pyStr "/out/recording.h5"),
                   some (PVal.pyInt 1)) ∧
    dictGet hdsort_default_params "file_name" = none ∧
    dictGet hdsort_default_params "filter" = some (PVal.pyBool true) :=
  ⟨rfl, rfl, rfl⟩

/-- C4 amended: the run does mutate the params mapping in
`_setup_recording` — it adds `file_name`, `file_format` and `sort_name`
and rewrites `filter` and `parfor` in place — but every other entry is
left with its original value whenever the stage succeeds. -/
theorem c4_params_frame (fs : FS) (hd : Option String) (up of : String)
    (p : Params) (k : String)
    (h1 : k ≠ "file_name") (h2 : k ≠ "file_format") (h3 : k ≠ "sort_name")
    (h4 : k ≠ "filter") (h5 : k ≠ "parfor") :
    Except.map (fun r => dictGet r.params k)
        (HDSort_setup_recording fs hd up of p)
      = Except.map (fun _ => dictGet p k)
        (HDSort_setup_recording fs hd up of p) := by
  cases hr : HDSort_setup_recording fs hd up of p with
  | error e => rfl
  | ok r =>
    obtain ⟨hpv, mb, cb, hhd, hmb, hco, hcb, hm, hc⟩ :=
      setup_ok_inv _ _ _ _ _ _ hr
    obtain ⟨fv, pv, hfv, hpv2, hqf, hqp, hframe⟩ :=
      coerceFilterParfor_ok_inv _ _ hco
    simp only [Except.map]
    congr 1
    rw [hframe k h4 h5]
    exact aug_get_other fs of p k h1 h2 h3

/-- C4 witness: the amended theorem at the key `hpf` on the default
params (its value survives the run unchanged). -/
theorem c4_witness :
    Except.map (fun r => dictGet r.params "hpf")
        (HDSort_setup_recording installedFS (some "/opt/hdsort") "/utils"
          "/out" hdsort_default_params)
      = Except.map (fun _ => dictGet hdsort_default_params "hpf")
        (HDSort_setup_recording installedFS (some "/opt/hdsort") "/utils"
          "/out" hdsort_default_params) :=
  c4_params_frame installedFS (some "/opt/hdsort") "/utils" "/out"
    hdsort_default_params "hpf" (by decide) (by decide) (by decide)
    (by decide) (by decide)

set_option maxRecDepth 1000000 in
/-- C2 counterexample: with the caller override `parfor=False`, the
first Render writes a config with `parfor = false`, but invoking the
Render step a second time on the same adapter (whose params were
mutated in place) writes `parfor = true` — the string `'false'` left in
the params is truthy — so the rendered files are not byte-identical. -/
theorem c2_counterexample :
    Except.map SetupResult.config_txt
        (HDSort_setup_recording installedFS (some "/opt/hdsort") "/utils"
          "/out" paramsParforFalse)
      = Except.ok
          "filter = 1\nparfor = false\nhpf = 300\nlpf = 7000\ndetect_threshold = 4.2\nn_pc_dims = 6\n" ∧
    Except.map SetupResult.config_txt
        (Except.bind
          (HDSort_setup_recording installedFS (some "/opt/hdsort") "/utils"
            "/out" paramsParforFalse)
          (fun r1 =>
            HDSort_setup_recording installedFS (some "/opt/hdsort") "/utils"
              "/out" r1.params))
      = Except.ok
          "filter = 1\nparfor = true\nhpf = 300\nlpf = 7000\ndetect_threshold = 4.2\nn_pc_dims = 6\n" ∧
    ("filter = 1\nparfor = false\nhpf = 300\nlpf = 7000\ndetect_threshold = 4.2\nn_pc_dims = 6\n" : String)
      ≠ "filter = 1\nparfor = true\nhpf = 300\nlpf = 7000\ndetect_threshold = 4.2\nn_pc_dims = 6\n" := by
  exact ⟨rfl, rfl, by decide⟩

/-- C2 amended: templating itself is deterministic (the rendered text is
a function of the params values), and re-invoking Render on the same
adapter writes byte-identical master and config scripts whenever the
params' `parfor` value is truthy; only a falsy `parfor`, rewritten in
place to the truthy string `'false'`, makes the second rendering
differ. -/
theorem c2_rerender_identical_when_parfor_truthy (fs : FS)
    (hd : Option String) (up of : String) (p : Params)
    (r1 r2 : SetupResult) (pv : PVal)
    (hpv : dictGet p "parfor" = some pv) (hpvt : pv.truthy = true)
    (h1 : HDSort_setup_recording fs hd up of p = Except.ok r1)
    (h2 : HDSort_setup_recording fs hd up of r1.params = Except.ok r2) :
    r2.master_txt = r1.master_txt ∧ r2.config_txt = r1.config_txt := by
  obtain ⟨hpa, mb1, cb1, hhd1, hmb1, hco1, hcb1, hm1, hc1⟩ :=
    setup_ok_inv _ _ _ _ _ _ h1
  obtain ⟨hpb, mb2, cb2, hhd2, hmb2, hco2, hcb2, hm2, hc2⟩ :=
    setup_ok_inv _ _ _ _ _ _ h2
  rw [hhd1] at hhd2
  injection hhd2 with hpe
  subst hpe
  obtain ⟨fv1, pv1, hfv1, hpv1, hqf1, hqp1, hframe1⟩ :=
    coerceFilterParfor_ok_inv _ _ hco1
  obtain ⟨fv2, pv2, hfv2, hpv2, hqf2, hqp2, hframe2⟩ :=
    coerceFilterParfor_ok_inv _ _ hco2
  have e1 : dictGet p "parfor" = some pv1 := by
    rw [← aug_get_other fs of p "parfor" (by decide) (by decide) (by decide)]
    exact hpv1
  have hpv1e : pv1 = pv := by
    rw [hpv] at e1
    exact (Option.some_inj.mp e1).symm
  subst hpv1e
  rw [hpvt] at hqp1
  simp only [if_true, ite_true] at hqp1
  have e2 : dictGet r1.params "filter" = some fv2 := by
    rw [← aug_get_other fs of r1.params "filter" (by decide) (by decide)
        (by decide)]
    exact hfv2
  have hfv2e : fv2 = PVal.pyInt (if fv1.truthy then 1 else 0) := by
    rw [hqf1] at e2
    exact (Option.some_inj.mp e2).symm
  subst hfv2e
  have e3 : dictGet r1.params "parfor" = some pv2 := by
    rw [← aug_get_other fs of r1.params "parfor" (by decide) (by decide)
        (by decide)]
    exact hpv2
  have hpv2e : pv2 = PVal.pyStr "true" := by
    rw [hqp1] at e3
    exact (Option.some_inj.mp e3).symm
  subst hpv2e
  obtain ⟨fn1, ff1, sn1, ch1, lm1, hfn1, hff1, hsn1, hch1, hlm1, hmbe1⟩ :=
    masterBindings_ok_inv _ _ _ _ _ _ hmb1
  obtain ⟨fn2, ff2, sn2, ch2, lm2, hfn2, hff2, hsn2, hch2, hlm2, hmbe2⟩ :=
    masterBindings_ok_inv _ _ _ _ _ _ hmb2
  rw [aug_get_file_name] at hfn1 hfn2
  rw [aug_get_file_format] at hff1 hff2
  rw [aug_get_sort_name] at hsn1 hsn2
  have hfn1e := (Option.some_inj.mp hfn1).symm
  have hfn2e := (Option.some_inj.mp hfn2).symm
  have hff1e := (Option.some_inj.mp hff1).symm
  have hff2e := (Option.some_inj.mp hff2).symm
  have hsn1e := (Option.some_inj.mp hsn1).symm
  have hsn2e := (Option.some_inj.mp hsn2).symm
  subst hfn1e; subst hfn2e; subst hff1e; subst hff2e
  subst hsn1e; subst hsn2e
  have hch2e : ch2 = ch1 := by
    have t2 : dictGet r1.params "chunk_size" = some ch2 := by
      rw [← aug_get_other fs of r1.params "chunk_size" (by decide)
          (by decide) (by decide)]
      exact hch2
    have t1 : dictGet r1.params "chunk_size" = some ch1 := by
      rw [hframe1 "chunk_size" (by decide) (by decide)]
      exact hch1
    rw [t1] at t2
    exact (Option.some_inj.mp t2).symm
  subst hch2e
  have hlm2e : lm2 = lm1 := by
    have t2 : dictGet r1.params "loop_mode" = some lm2 := by
      rw [← aug_get_other fs of r1.params "loop_mode" (by decide)
          (by decide) (by decide)]
      exact hlm2
    have t1 : dictGet r1.params "loop_mode" = some lm1 := by
      rw [hframe1 "loop_mode" (by decide) (by decide)]
      exact hlm1
    rw [t1] at t2
    exact (Option.some_inj.mp t2).symm
  subst hlm2e
  obtain ⟨gf1, gp1, gh1, gl1, gd1, gn1, hgf1, hgp1, hgh1, hgl1, hgd1, hgn1,
    hcbe1⟩ := configBindings_ok_inv _ _ hcb1
  obtain ⟨gf2, gp2, gh2, gl2, gd2, gn2, hgf2, hgp2, hgh2, hgl2, hgd2, hgn2,
    hcbe2⟩ := configBindings_ok_inv _ _ hcb2
  have hgf1e : gf1 = PVal.pyInt (if fv1.truthy then 1 else 0) := by
    rw [hqf1] at hgf1
    exact (Option.some_inj.mp hgf1).symm
  subst hgf1e
  have hgp1e : gp1 = PVal.pyStr "true" := by
    rw [hqp1] at hgp1
    exact (Option.some_inj.mp hgp1).symm
  subst hgp1e
  have hqf2e : dictGet r2.params "filter"
      = some (PVal.pyInt (if fv1.truthy then 1 else 0)) := by
    rw [hqf2]
    cases hft : fv1.truthy <;> simp [hft, PVal.truthy]
  have hgf2e : gf2 = PVal.pyInt (if fv1.truthy then 1 else 0) := by
    rw [hqf2e] at hgf2
    exact (Option.some_inj.mp hgf2).symm
  subst hgf2e
  have hqp2e : dictGet r2.params "parfor" = some (PVal.pyStr "true") := by
    rw [hqp2]
    simp [PVal.truthy]
  have hgp2e : gp2 = PVal.pyStr "true" := by
    rw [hqp2e] at hgp2
    exact (Option.some_inj.mp hgp2).symm
  subst hgp2e
  have chain : ∀ k, k ≠ "file_name" → k ≠ "file_format" → k ≠ "sort_name" →
      k ≠ "filter" → k ≠ "parfor" →
      dictGet r2.params k = dictGet r1.params k := by
    intro k hk1 hk2 hk3 hk4 hk5
    rw [hframe2 k hk4 hk5, aug_get_other fs of r1.params k hk1 hk2 hk3]
  have hgh2e : gh2 = gh1 := by
    have t2 := hgh2
    rw [chain "hpf" (by decide) (by decide) (by decide) (by decide)
        (by decide)] at t2
    rw [hgh1] at t2
    exact (Option.some_inj.mp t2).symm
  subst hgh2e
  have hgl2e : gl2 = gl1 := by
    have t2 := hgl2
    rw [chain "lpf" (by decide) (by decide) (by decide) (by decide)
        (by decide)] at t2
    rw [hgl1] at t2
    exact (Option.some_inj.mp t2).symm
  subst hgl2e
  have hgd2e : gd2 = gd1 := by
    have t2 := hgd2
    rw [chain "detect_threshold" (by decide) (by decide) (by decide)
        (by decide) (by decide)] at t2
    rw [hgd1] at t2
    exact (Option.some_inj.mp t2).symm
  subst hgd2e
  have hgn2e : gn2 = gn1 := by
    have t2 := hgn2
    rw [chain "n_pc_dims" (by decide) (by decide) (by decide) (by decide)
        (by decide)] at t2
    rw [hgn1] at t2
    exact (Option.some_inj.mp t2).symm
  subst hgn2e
  constructor
  · rw [hm1, hm2, hmbe1, hmbe2]
  · rw [hc1, hc2, hcbe1, hcbe2]

set_option maxRecDepth 1000000 in
/-- C2 witness: the amended theorem at the concrete minimal params
(whose `parfor` is `True`): the Render step's files are byte-identical
across the repeated invocation. -/
theorem c2_witness :
    HDSort_setup_recording installedFS (some "/h") "/u" "/o" smallParams
      = Except.ok
          ({ params :=
               [("filter", PVal.pyInt 0),
                ("parfor", PVal.pyStr "true"),
                ("hpf", PVal.pyInt 1),
                ("lpf", PVal.pyInt 2),
                ("detect_threshold", PVal.pyInt 3),
                ("n_pc_dims", PVal.pyInt 4),
                ("chunk_size", PVal.pyInt 5),
                ("loop_mode", PVal.pyStr "l"),
                ("file_name", PVal.pyStr "/o/recording.h5"),
                ("file_format", PVal.pyStr "mea1k"),
                ("sort_name", PVal.pyStr "hdsort_output")],
             master_txt :=
               "hdsort_path = /h\nutils_path = /u\noutput_folder = /o\nconfig_path = /o/hdsort_config.m\nfile_name = /o/recording.h5\nfile_format = mea1k\nsort_name = hdsort_output\nchunk_size = 5\nloop_mode = l\n",
             config_txt :=
               "filter = 0\nparfor = true\nhpf = 1\nlpf = 2\ndetect_threshold = 3\nn_pc_dims = 4\n" } : SetupResult) ∧
    (({ params :=
               [("filter", PVal.pyInt 0),
                ("parfor", PVal.pyStr "true"),
                ("hpf", PVal.pyInt 1),
                ("lpf", PVal.pyInt 2),
                ("detect_threshold", PVal.pyInt 3),
                ("n_pc_dims", PVal.pyInt 4),
                ("chunk_size", PVal.pyInt 5),
                ("loop_mode", PVal.pyStr "l"),
                ("file_name", PVal.pyStr "/o/recording.h5"),
                ("file_format", PVal.pyStr "mea1k"),
                ("sort_name", PVal.pyStr "hdsort_output")],
             master_txt :=
               "hdsort_path = /h\nutils_path = /u\noutput_folder = /o\nconfig_path = /o/hdsort_config.m\nfile_name = /o/recording.h5\nfile_format = mea1k\nsort_name = hdsort_output\nchunk_size = 5\nloop_mode = l\n",
             config_txt :=
               "filter = 0\nparfor = true\nhpf = 1\nlpf = 2\ndetect_threshold = 3\nn_pc_dims = 4\n" } : SetupResult).master_txt
        = ({ params :=
               [("filter", PVal.pyInt 0),
                ("parfor", PVal.pyStr "true"),
                ("hpf", PVal.pyInt 1),
                ("lpf", PVal.pyInt 2),
                ("detect_threshold", PVal.pyInt 3),
                ("n_pc_dims", PVal.pyInt 4),
                ("chunk_size", PVal.pyInt 5),
                ("loop_mode", PVal.pyStr "l"),
                ("file_name", PVal.pyStr "/o/recording.h5"),
                ("file_format", PVal.pyStr "mea1k"),
                ("sort_name", PVal.pyStr "hdsort_output")],
             master_txt :=
               "hdsort_path = /h\nutils_path = /u\noutput_folder = /o\nconfig_path = /o/hdsort_config.m\nfile_name = /o/recording.h5\nfile_format = mea1k\nsort_name = hdsort_output\nchunk_size = 5\nloop_mode = l\n",
             config_txt :=
               "filter = 0\nparfor = true\nhpf = 1\nlpf = 2\ndetect_threshold = 3\nn_pc_dims = 4\n" } : SetupResult).master_txt ∧
     ({ params :=
               [("filter", PVal.pyInt 0),
                ("parfor", PVal.pyStr "true"),
                ("hpf", PVal.pyInt 1),
                ("lpf", PVal.pyInt 2),
                ("detect_threshold", PVal.pyInt 3),
                ("n_pc_dims", PVal.pyInt 4),
                ("chunk_size", PVal.pyInt 5),
                ("loop_mode", PVal.pyStr "l"),
                ("file_name", PVal.pyStr "/o/recording.h5"),
                ("file_format", PVal.pyStr "mea1k"),
                ("sort_name", PVal.pyStr "hdsort_output")],
             master_txt :=
               "hdsort_path = /h\nutils_path = /u\noutput_folder = /o\nconfig_path = /o/hdsort_config.m\nfile_name = /o/recording.h5\nfile_format = mea1k\nsort_name = hdsort_output\nchunk_size = 5\nloop_mode = l\n",
             config_txt :=
               "filter = 0\nparfor = true\nhpf = 1\nlpf = 2\ndetect_threshold = 3\nn_pc_dims = 4\n" } : SetupResult).config_txt
        = ({ params :=
               [("filter", PVal.pyInt 0),
                ("parfor", PVal.pyStr "true"),
                ("hpf", PVal.pyInt 1),
                ("lpf", PVal.pyInt 2),
                ("detect_threshold", PVal.pyInt 3),
                ("n_pc_dims", PVal.pyInt 4),
                ("chunk_size", PVal.pyInt 5),
                ("loop_mode", PVal.pyStr "l"),
                ("file_name", PVal.pyStr "/o/recording.h5"),
                ("file_format", PVal.pyStr "mea1k"),
                ("sort_name", PVal.pyStr "hdsort_output")],
             master_txt :=
               "hdsort_path = /h\nutils_path = /u\noutput_folder = /o\nconfig_path = /o/hdsort_config.m\nfile_name = /o/recording.h5\nfile_format = mea1k\nsort_name = hdsort_output\nchunk_size = 5\nloop_mode = l\n",
             config_txt :=
               "filter = 0\nparfor = true\nhpf = 1\nlpf = 2\ndetect_threshold = 3\nn_pc_dims = 4\n" } : SetupResult).config_txt) :=
  ⟨rfl,
   c2_rerender_identical_when_parfor_truthy installedFS (some "/h") "/u" "/o"
     smallParams
     ({ params :=
               [("filter", PVal.pyInt 0),
                ("parfor", PVal.pyStr "true"),
                ("hpf", PVal.pyInt 1),
                ("lpf", PVal.pyInt 2),
                ("detect_threshold", PVal.pyInt 3),
                ("n_pc_dims", PVal.pyInt 4),
                ("chunk_size", PVal.pyInt 5),
                ("loop_mode", PVal.pyStr "l"),
                ("file_name", PVal.pyStr "/o/recording.h5"),
                ("file_format", PVal.pyStr "mea1k"),
                ("sort_name", PVal.pyStr "hdsort_output")],
             master_txt :=
               "hdsort_path = /h\nutils_path = /u\noutput_folder = /o\nconfig_path = /o/hdsort_config.m\nfile_name = /o/recording.h5\nfile_format = mea1k\nsort_name = hdsort_output\nchunk_size = 5\nloop_mode = l\n",
             config_txt :=
               "filter = 0\nparfor = true\nhpf = 1\nlpf = 2\ndetect_threshold = 3\nn_pc_dims = 4\n" } : SetupResult)
     ({ params :=
               [("filter", PVal.pyInt 0),
                ("parfor", PVal.pyStr "true"),
                ("hpf", PVal.pyInt 1),
                ("lpf", PVal.pyInt 2),
                ("detect_threshold", PVal.pyInt 3),
                ("n_pc_dims", PVal.pyInt 4),
                ("chunk_size", PVal.pyInt 5),
                ("loop_mode", PVal.pyStr "l"),
                ("file_name", PVal.pyStr "/o/recording.h5"),
                ("file_format", PVal.pyStr "mea1k"),
                ("sort_name", PVal.pyStr "hdsort_output")],
             master_txt :=
               "hdsort_path = /h\nutils_path = /u\noutput_folder = /o\nconfig_path = /o/hdsort_config.m\nfile_name = /o/recording.h5\nfile_format = mea1k\nsort_name = hdsort_output\nchunk_size = 5\nloop_mode = l\n",
             config_txt :=
               "filter = 0\nparfor = true\nhpf = 1\nlpf = 2\ndetect_threshold = 3\nn_pc_dims = 4\n" } : SetupResult)
     (PVal.pyBool true) rfl rfl rfl rfl⟩

end SpikeSorters
